import Mathlib

/-!
# Verification of the Yubico.NativeShims bridge layer

A shallow embedding, in Lean 4, of the core logic of the native capability
bridge in `Yubico.NativeShims`:

* the Status-Change Bridge and its Fixed-Layout Record Converter
  (`pcsc.c`, `Native_SCardGetStatusChange`);
* the AES-256-GCM cipher context shims and the command-code translator
  (`ssl.gcmevp.c`);
* the dual-backend CMAC context shims (`ssl.cmac.c`).

Machine integers are modelled as `Nat`/`Int` (the embedded code only moves
values field-to-field, so no overflow arithmetic arises); pointers are
modelled by their numeric address value, which is all the bridge ever
touches (it never dereferences a reader-name pointer).  The external
collaborators (the PC/SC subsystem and the OpenSSL primitives) are not part
of the repository; following the design document, which specifies them only
at their interface, they appear here either as function parameters
(the status-change wait, the cipher-ctrl backend, the abstract CMAC
primitive) or as interface models marked `Modelled from the spec`.
-/

set_option autoImplicit false

namespace YubicoShims

/-! ## pcsc.c — data model

`NATIVE_SCARD_READERSTATE` is the packed caller-facing record declared at the
top of `pcsc.c`; `SCARD_READERSTATE` is the platform subsystem's own record
that the bridge mirrors into.  `szReader` and `pvUserData` are pointers,
modelled by their address value; `rgbAtr` is the 36-byte ATR buffer,
modelled as a list of bytes. -/

structure NATIVE_SCARD_READERSTATE where
  szReader : Nat
  pvUserData : Nat
  dwCurrentState : Nat
  dwEventState : Nat
  cbAtr : Nat
  rgbAtr : List Nat
  deriving DecidableEq, Repr

structure SCARD_READERSTATE where
  szReader : Nat
  pvUserData : Nat
  dwCurrentState : Nat
  dwEventState : Nat
  cbAtr : Nat
  rgbAtr : List Nat
  deriving DecidableEq, Repr

/-- The `SCARD_E_NO_MEMORY` status code (`0x80100006` as a `DWORD`), after
the `(int32_t)` cast performed at the early return of
`Native_SCardGetStatusChange`. -/
def SCARD_E_NO_MEMORY : Int := 0x80100006 - 0x100000000

/-- Forward conversion of one record, `pcsc.c` lines 150–159: the native
mirror entry is first zeroed by `memset`, then `szReader`,
`dwCurrentState`, `dwEventState`, `cbAtr` are assigned and the 36-byte
`rgbAtr` buffer is `memcpy`'d from the caller record.  `pvUserData` is not
assigned in the loop, so it keeps the zero left by `memset`. -/
def toNativeRecord (r : NATIVE_SCARD_READERSTATE) : SCARD_READERSTATE where
  szReader := r.szReader
  pvUserData := 0
  dwCurrentState := r.dwCurrentState
  dwEventState := r.dwEventState
  cbAtr := r.cbAtr
  rgbAtr := r.rgbAtr

/-- Reverse copy of one record, `pcsc.c` lines 168–174: `dwCurrentState`,
`dwEventState`, `cbAtr` are assigned and `rgbAtr` is `memcpy`'d from the
native mirror back into the caller record; `szReader` and `pvUserData` are
not touched by the loop. -/
def copyBackRecord (caller : NATIVE_SCARD_READERSTATE) (native : SCARD_READERSTATE) :
    NATIVE_SCARD_READERSTATE :=
  { caller with
    dwCurrentState := native.dwCurrentState
    dwEventState := native.dwEventState
    cbAtr := native.cbAtr
    rgbAtr := native.rgbAtr }

/-- Observable outcome of one `Native_SCardGetStatusChange` call.
`rgReaderStates` is the caller's array after the call (the C function
mutates it in place).  `forwarded`, `subsystemInvoked`, `allocations` and
`frees` are ghost observables recording, respectively, the mirror array
handed to the subsystem, whether the blocking wait was invoked, and how
many `malloc`/`free` events the call performed. -/
structure SCardStatusChangeResult where
  status : Int
  rgReaderStates : List NATIVE_SCARD_READERSTATE
  forwarded : List SCARD_READERSTATE
  subsystemInvoked : Bool
  allocations : Nat
  frees : Nat
  deriving DecidableEq, Repr

/-- `Native_SCardGetStatusChange` (`pcsc.c` lines 134–179).

The external blocking wait `SCardGetStatusChange` is a parameter: it
receives the context handle, the timeout and the mirror array, and returns
the subsystem's status code together with the mirror array as the
subsystem left it (the C subsystem mutates the array in place).  `mallocOk`
models whether the transient `malloc` of the mirror array succeeds.

* On allocation failure the function returns `(int32_t)SCARD_E_NO_MEMORY`
  at once: the wait is not invoked and the caller array is untouched.
* Otherwise the mirror is built record-by-record with `toNativeRecord`
  (after the `memset`), the wait is invoked, the reverse loop copies the
  mutable fields back with `copyBackRecord`, the mirror is freed, and the
  wait's status code is returned. -/
def Native_SCardGetStatusChange
    (SCardGetStatusChange :
      Nat → Nat → List SCARD_READERSTATE → Int × List SCARD_READERSTATE)
    (mallocOk : Bool) (hContext dwTimeout : Nat)
    (rgReaderStates : List NATIVE_SCARD_READERSTATE) : SCardStatusChangeResult :=
  if !mallocOk then
    { status := SCARD_E_NO_MEMORY
      rgReaderStates := rgReaderStates
      forwarded := []
      subsystemInvoked := false
      allocations := 0
      frees := 0 }
  else
    let readerStates := rgReaderStates.map toNativeRecord
    let res := SCardGetStatusChange hContext dwTimeout readerStates
    { status := res.1
      rgReaderStates := List.zipWith copyBackRecord rgReaderStates res.2
      forwarded := readerStates
      subsystemInvoked := true
      allocations := 1
      frees := 1 }

/-! ## Concrete evaluation data

A sample caller record and a sample subsystem behaviour, used to evaluate
the bridge on concrete inputs. -/

def sampleRecord : NATIVE_SCARD_READERSTATE where
  szReader := 100
  pvUserData := 42
  dwCurrentState := 5
  dwEventState := 0
  cbAtr := 2
  rgbAtr := List.replicate 36 0

/-- A concrete subsystem behaviour: report status `0` and set every mirror
record's `dwCurrentState` to `7` and `dwEventState` to `9`. -/
def sampleSubsystem (_hContext _dwTimeout : Nat) (ns : List SCARD_READERSTATE) :
    Int × List SCARD_READERSTATE :=
  (0, ns.map fun n => { n with dwCurrentState := 7, dwEventState := 9 })

/-- The mirror array `sampleSubsystem` hands back for the caller array
`[sampleRecord]`. -/
def sampleMirror : List SCARD_READERSTATE :=
  [{ szReader := 100, pvUserData := 0, dwCurrentState := 7, dwEventState := 9,
     cbAtr := 2, rgbAtr := List.replicate 36 0 }]

/-! ## Claims about the Status-Change Bridge -/

/-- C1 (counterexample): the reverse copy of `Native_SCardGetStatusChange`
does not leave the caller's `dwCurrentState` alone.  With a subsystem that
sets the mirror's `dwCurrentState` to `7`, a caller record that went in
with `dwCurrentState = 5` comes back with `dwCurrentState = 7`. -/
theorem reverse_copy_overwrites_currentState :
    ((Native_SCardGetStatusChange sampleSubsystem true 0 0 [sampleRecord]).rgReaderStates.map
        (fun r => r.dwCurrentState)) = [7] ∧
    sampleRecord.dwCurrentState = 5 := by
  constructor
  · rfl
  · rfl

/-- C1 (amended): in the reverse copy of `Native_SCardGetStatusChange`
(after the underlying wait returns), for every record in the caller's
array the `dwEventState`, `dwCurrentState`, `cbAtr`, and 36-byte ATR
buffer are written back from the native mirror, while the record's
`szReader` pointer and `pvUserData` are never overwritten. -/
theorem reverse_copy_field_frame
    (sub : Nat → Nat → List SCARD_READERSTATE → Int × List SCARD_READERSTATE)
    (h t : Nat) (rg : List NATIVE_SCARD_READERSTATE)
    (ns : List SCARD_READERSTATE) (i : Nat)
    (hi : i < rg.length) (hn : i < ns.length)
    (hsub : (sub h t (rg.map toNativeRecord)).2 = ns) :
    (Native_SCardGetStatusChange sub true h t rg).rgReaderStates
        = List.zipWith copyBackRecord rg ns ∧
    ∀ hz : i < (List.zipWith copyBackRecord rg ns).length,
      ((List.zipWith copyBackRecord rg ns).get ⟨i, hz⟩).szReader
          = (rg.get ⟨i, hi⟩).szReader ∧
      ((List.zipWith copyBackRecord rg ns).get ⟨i, hz⟩).pvUserData
          = (rg.get ⟨i, hi⟩).pvUserData ∧
      ((List.zipWith copyBackRecord rg ns).get ⟨i, hz⟩).dwCurrentState
          = (ns.get ⟨i, hn⟩).dwCurrentState ∧
      ((List.zipWith copyBackRecord rg ns).get ⟨i, hz⟩).dwEventState
          = (ns.get ⟨i, hn⟩).dwEventState ∧
      ((List.zipWith copyBackRecord rg ns).get ⟨i, hz⟩).cbAtr
          = (ns.get ⟨i, hn⟩).cbAtr ∧
      ((List.zipWith copyBackRecord rg ns).get ⟨i, hz⟩).rgbAtr
          = (ns.get ⟨i, hn⟩).rgbAtr := by
  subst hsub
  refine ⟨by simp [Native_SCardGetStatusChange], fun hz => ?_⟩
  simp [List.getElem_zipWith, copyBackRecord]

/-- Witness for `reverse_copy_field_frame` at the sample input. -/
theorem reverse_copy_field_frame_witness :
    (Native_SCardGetStatusChange sampleSubsystem true 0 0 [sampleRecord]).rgReaderStates
        = List.zipWith copyBackRecord [sampleRecord] sampleMirror ∧
    ∀ hz : 0 < (List.zipWith copyBackRecord [sampleRecord] sampleMirror).length,
      ((List.zipWith copyBackRecord [sampleRecord] sampleMirror).get ⟨0, hz⟩).szReader
          = (([sampleRecord] : List NATIVE_SCARD_READERSTATE).get ⟨0, by decide⟩).szReader ∧
      ((List.zipWith copyBackRecord [sampleRecord] sampleMirror).get ⟨0, hz⟩).pvUserData
          = (([sampleRecord] : List NATIVE_SCARD_READERSTATE).get ⟨0, by decide⟩).pvUserData ∧
      ((List.zipWith copyBackRecord [sampleRecord] sampleMirror).get ⟨0, hz⟩).dwCurrentState
          = (sampleMirror.get ⟨0, by decide⟩).dwCurrentState ∧
      ((List.zipWith copyBackRecord [sampleRecord] sampleMirror).get ⟨0, hz⟩).dwEventState
          = (sampleMirror.get ⟨0, by decide⟩).dwEventState ∧
      ((List.zipWith copyBackRecord [sampleRecord] sampleMirror).get ⟨0, hz⟩).cbAtr
          = (sampleMirror.get ⟨0, by decide⟩).cbAtr ∧
      ((List.zipWith copyBackRecord [sampleRecord] sampleMirror).get ⟨0, hz⟩).rgbAtr
          = (sampleMirror.get ⟨0, by decide⟩).rgbAtr :=
  reverse_copy_field_frame sampleSubsystem 0 0 [sampleRecord] sampleMirror 0
    (by decide) (by decide) (by decide)

/-- C2 (counterexample): the forward conversion of
`Native_SCardGetStatusChange` does not copy `pvUserData` into the native
mirror: a caller record with `pvUserData = 42` yields a forwarded mirror
record with `pvUserData = 0`. -/
theorem forward_copy_drops_pvUserData :
    ((Native_SCardGetStatusChange sampleSubsystem true 0 0 [sampleRecord]).forwarded.map
        (fun n => n.pvUserData)) = [0] ∧
    sampleRecord.pvUserData = 42 := by
  constructor
  · rfl
  · rfl

/-- C2 (amended): in the forward conversion of `Native_SCardGetStatusChange`,
exactly `cReaders` native records are produced from the zero-initialized
allocation, and for every record the `szReader` pointer (not its
pointed-to content), `dwCurrentState`, `dwEventState`, `cbAtr`, and the
36-byte ATR buffer are copied from the caller record; `pvUserData` is not
copied and remains the zero left by the zero-initialization. -/
theorem forward_conversion_fields
    (sub : Nat → Nat → List SCARD_READERSTATE → Int × List SCARD_READERSTATE)
    (h t : Nat) (rg : List NATIVE_SCARD_READERSTATE)
    (r : NATIVE_SCARD_READERSTATE) :
    (Native_SCardGetStatusChange sub true h t rg).forwarded = rg.map toNativeRecord ∧
    (rg.map toNativeRecord).length = rg.length ∧
    (toNativeRecord r).szReader = r.szReader ∧
    (toNativeRecord r).pvUserData = 0 ∧
    (toNativeRecord r).dwCurrentState = r.dwCurrentState ∧
    (toNativeRecord r).dwEventState = r.dwEventState ∧
    (toNativeRecord r).cbAtr = r.cbAtr ∧
    (toNativeRecord r).rgbAtr = r.rgbAtr := by
  refine ⟨by simp [Native_SCardGetStatusChange], List.length_map rg toNativeRecord,
    rfl, rfl, rfl, rfl, rfl, rfl⟩

/-- C3 (confirmed): when the transient allocation fails,
`Native_SCardGetStatusChange` returns the distinct out-of-memory status
code, never invokes the underlying wait, and leaves the caller's records
unchanged. -/
theorem alloc_failure_short_circuits
    (sub : Nat → Nat → List SCARD_READERSTATE → Int × List SCARD_READERSTATE)
    (h t : Nat) (rg : List NATIVE_SCARD_READERSTATE) :
    (Native_SCardGetStatusChange sub false h t rg).status = SCARD_E_NO_MEMORY ∧
    SCARD_E_NO_MEMORY ≠ 0 ∧
    (Native_SCardGetStatusChange sub false h t rg).subsystemInvoked = false ∧
    (Native_SCardGetStatusChange sub false h t rg).rgReaderStates = rg := by
  refine ⟨rfl, by decide, rfl, rfl⟩

/-- C4 (confirmed): whenever the underlying wait is invoked (i.e. the
allocation succeeded), `Native_SCardGetStatusChange` performs the reverse
record copy before returning, whatever status the wait reports, and
returns the wait's status code unmodified. -/
theorem wait_always_followed_by_reverse_copy
    (sub : Nat → Nat → List SCARD_READERSTATE → Int × List SCARD_READERSTATE)
    (h t : Nat) (rg : List NATIVE_SCARD_READERSTATE) :
    (Native_SCardGetStatusChange sub true h t rg).subsystemInvoked = true ∧
    (Native_SCardGetStatusChange sub true h t rg).status
        = (sub h t (rg.map toNativeRecord)).1 ∧
    (Native_SCardGetStatusChange sub true h t rg).rgReaderStates
        = List.zipWith copyBackRecord rg (sub h t (rg.map toNativeRecord)).2 := by
  refine ⟨rfl, rfl, rfl⟩

/-- C5 (confirmed): every call of `Native_SCardGetStatusChange` ends with
net-zero outstanding allocations: when the allocation succeeds the
transient array is freed exactly once whatever the subsystem reports, and
when it fails nothing was allocated. -/
theorem transient_array_never_leaks
    (sub : Nat → Nat → List SCARD_READERSTATE → Int × List SCARD_READERSTATE)
    (mallocOk : Bool) (h t : Nat) (rg : List NATIVE_SCARD_READERSTATE) :
    (Native_SCardGetStatusChange sub mallocOk h t rg).allocations
        = (Native_SCardGetStatusChange sub mallocOk h t rg).frees ∧
    (Native_SCardGetStatusChange sub true h t rg).allocations = 1 ∧
    (Native_SCardGetStatusChange sub true h t rg).frees = 1 ∧
    (Native_SCardGetStatusChange sub false h t rg).allocations = 0 ∧
    (Native_SCardGetStatusChange sub false h t rg).frees = 0 := by
  cases mallocOk <;> exact ⟨rfl, rfl, rfl, rfl, rfl⟩

/-! ## ssl.gcmevp.c — symmetric AES-256-GCM cipher context

The cipher context lives inside the cryptographic library; following the
design document it is modelled at its interface: the context records the
direction chosen at initialization, `EVP_EncryptInit_ex` /
`EVP_DecryptInit_ex` set it, and `EVP_CIPHER_CTX_encrypting` reports it.
The update/final primitives are distinguished only by which of the four
operations is invoked, which is all these claims observe. -/

structure EVP_CIPHER_CTX where
  encrypting : Bool
  deriving DecidableEq, Repr

/-- Modelled from the spec: the cryptographic library's encrypt-direction
initializer records the encrypt direction in the context and reports its
status (success `1`). -/
def EVP_EncryptInit_ex (c : EVP_CIPHER_CTX) (_keyData _nonce : List Nat) :
    Int × EVP_CIPHER_CTX :=
  (1, { c with encrypting := true })

/-- Modelled from the spec: the decrypt-direction initializer records the
decrypt direction in the context. -/
def EVP_DecryptInit_ex (c : EVP_CIPHER_CTX) (_keyData _nonce : List Nat) :
    Int × EVP_CIPHER_CTX :=
  (1, { c with encrypting := false })

/-- Modelled from the spec: the library reports the direction flag stored
in the context (nonzero when the context was initialized for
encryption). -/
def EVP_CIPHER_CTX_encrypting (c : EVP_CIPHER_CTX) : Int :=
  if c.encrypting then 1 else 0

/-- The four underlying cipher operations a shim call can dispatch to. -/
inductive EvpOp
  | encryptUpdate
  | decryptUpdate
  | encryptFinal
  | decryptFinal
  deriving DecidableEq, Repr

/-- `Native_EVP_Aes256Gcm_Init` (`ssl.gcmevp.c` lines 23–38): if
`isEncrypt != 0` initialize the context for encryption, otherwise for
decryption.  This is the only call that carries a direction parameter. -/
def Native_EVP_Aes256Gcm_Init (isEncrypt : Int) (c : EVP_CIPHER_CTX)
    (keyData nonce : List Nat) : Int × EVP_CIPHER_CTX :=
  if isEncrypt ≠ 0 then
    EVP_EncryptInit_ex c keyData nonce
  else
    EVP_DecryptInit_ex c keyData nonce

/-- `Native_EVP_Update` (`ssl.gcmevp.c` lines 40–56): no direction
parameter; it queries `EVP_CIPHER_CTX_encrypting(c)` and dispatches to the
encrypt-update or the decrypt-update primitive. -/
def Native_EVP_Update (c : EVP_CIPHER_CTX) : EvpOp :=
  if EVP_CIPHER_CTX_encrypting c ≠ 0 then
    EvpOp.encryptUpdate
  else
    EvpOp.decryptUpdate

/-- `Native_EVP_Final_ex` (`ssl.gcmevp.c` lines 58–72): no direction
parameter; it queries `EVP_CIPHER_CTX_encrypting(c)` and dispatches to the
encrypt-final or the decrypt-final primitive. -/
def Native_EVP_Final_ex (c : EVP_CIPHER_CTX) : EvpOp :=
  if EVP_CIPHER_CTX_encrypting c ≠ 0 then
    EvpOp.encryptFinal
  else
    EvpOp.decryptFinal

/-- `Native_EVP_CIPHER_CTX_ctrl` (`ssl.gcmevp.c` lines 74–109).

`evpGetTag` and `evpSetTag` stand for the header constants
`EVP_CTRL_CCM_GET_TAG` and `EVP_CTRL_CCM_SET_TAG` of whatever OpenSSL the
shim is compiled against; the backend `EVP_CIPHER_CTX_ctrl` is a
parameter mapping `(cmd, p1, p2)` to a status.  The local `cmd` starts as
`EVP_CTRL_CCM_SET_TAG`; the `switch` returns `0` on any unrecognized
value, rebinds `cmd` to the get-tag constant for caller value `16`
(falling through to the `break` of case `17`), and leaves it as the
set-tag constant for caller value `17`; afterwards the backend is invoked
with `cmd`.  The result pairs the returned status with the list of
backend control codes invoked. -/
def Native_EVP_CIPHER_CTX_ctrl (evpGetTag evpSetTag : Int)
    (backend : Int → Int → List Nat → Int)
    (csCmd p1 : Int) (p2 : List Nat) : Int × List Int :=
  if csCmd = 16 then
    (backend evpGetTag p1 p2, [evpGetTag])
  else if csCmd = 17 then
    (backend evpSetTag p1 p2, [evpSetTag])
  else
    (0, [])

/-! ## Claims about the cipher context and the command translator -/

/-- C6 (confirmed): the command translator in `Native_EVP_CIPHER_CTX_ctrl`
recognizes exactly the caller values `16` (translated to the backend's
get-tag code, and the backend is invoked with it) and `17` (translated to
the backend's set-tag code); every other caller value returns the no-op
result `0` without invoking the backend at all. -/
theorem ctrl_command_translation (evpGetTag evpSetTag : Int)
    (backend : Int → Int → List Nat → Int) (csCmd p1 : Int) (p2 : List Nat) :
    (csCmd = 16 →
      Native_EVP_CIPHER_CTX_ctrl evpGetTag evpSetTag backend csCmd p1 p2
        = (backend evpGetTag p1 p2, [evpGetTag])) ∧
    (csCmd = 17 →
      Native_EVP_CIPHER_CTX_ctrl evpGetTag evpSetTag backend csCmd p1 p2
        = (backend evpSetTag p1 p2, [evpSetTag])) ∧
    (csCmd ≠ 16 → csCmd ≠ 17 →
      Native_EVP_CIPHER_CTX_ctrl evpGetTag evpSetTag backend csCmd p1 p2
        = (0, [])) := by
  refine ⟨fun h16 => ?_, fun h17 => ?_, fun h16 h17 => ?_⟩
  · simp [Native_EVP_CIPHER_CTX_ctrl, h16]
  · simp [Native_EVP_CIPHER_CTX_ctrl, h17]
  · simp [Native_EVP_CIPHER_CTX_ctrl, h16, h17]

/-- Witness for `ctrl_command_translation`: evaluated at the recognized
caller value `16`, the recognized value `17`, and the unrecognized values
`0` and `-5`, with a concrete backend. -/
theorem ctrl_command_translation_witness :
    (Native_EVP_CIPHER_CTX_ctrl 160 170 (fun cmd _ _ => cmd + 1) 16 0 [] = (161, [160])) ∧
    (Native_EVP_CIPHER_CTX_ctrl 160 170 (fun cmd _ _ => cmd + 1) 17 0 [] = (171, [170])) ∧
    (Native_EVP_CIPHER_CTX_ctrl 160 170 (fun cmd _ _ => cmd + 1) 0 0 [] = (0, [])) ∧
    (Native_EVP_CIPHER_CTX_ctrl 160 170 (fun cmd _ _ => cmd + 1) (-5) 0 [] = (0, [])) :=
  ⟨(ctrl_command_translation 160 170 (fun cmd _ _ => cmd + 1) 16 0 []).1 rfl,
   (ctrl_command_translation 160 170 (fun cmd _ _ => cmd + 1) 17 0 []).2.1 rfl,
   ((ctrl_command_translation 160 170 (fun cmd _ _ => cmd + 1) 0 0 []).2.2
      (by decide) (by decide)),
   ((ctrl_command_translation 160 170 (fun cmd _ _ => cmd + 1) (-5) 0 []).2.2
      (by decide) (by decide))⟩

/-- C7 (confirmed): the direction is recorded only at
`Native_EVP_Aes256Gcm_Init` (whose `isEncrypt` parameter is the only
direction input in the interface); `Native_EVP_Update` and
`Native_EVP_Final_ex` take no direction parameter and decide between the
encrypt and the decrypt primitive solely from the flag stored in the
context, so they perform the encrypt step if and only if the context was
initialized for encryption. -/
theorem update_final_follow_recorded_direction (isEncrypt : Int)
    (c : EVP_CIPHER_CTX) (keyData nonce : List Nat) :
    (Native_EVP_Update (Native_EVP_Aes256Gcm_Init isEncrypt c keyData nonce).2
        = EvpOp.encryptUpdate ↔ isEncrypt ≠ 0) ∧
    (Native_EVP_Update (Native_EVP_Aes256Gcm_Init isEncrypt c keyData nonce).2
        = EvpOp.decryptUpdate ↔ isEncrypt = 0) ∧
    (Native_EVP_Final_ex (Native_EVP_Aes256Gcm_Init isEncrypt c keyData nonce).2
        = EvpOp.encryptFinal ↔ isEncrypt ≠ 0) ∧
    (Native_EVP_Final_ex (Native_EVP_Aes256Gcm_Init isEncrypt c keyData nonce).2
        = EvpOp.decryptFinal ↔ isEncrypt = 0) := by
  by_cases h : isEncrypt = 0 <;>
    simp [Native_EVP_Aes256Gcm_Init, Native_EVP_Update, Native_EVP_Final_ex,
      EVP_EncryptInit_ex, EVP_DecryptInit_ex, EVP_CIPHER_CTX_encrypting, h]

/-! ## ssl.cmac.c — dual-backend CMAC context

`ssl.cmac.c` compiles one of two backends: the `EVP_MAC`-based one
(non-Linux) and the `CMAC`-based one (Linux).  The shim logic — the
per-algorithm cipher selection, the fixed block size, the zero IV, and
the state threading — is embedded from the source.  The backend
primitives themselves belong to the cryptographic library; following the
design document they are modelled at their interface, both realizing the
block-cipher CMAC with zero IV, abstracted as a `tagOf` parameter mapping
(cipher, iv, key, message) to the produced tag. -/

/-- The three AES-CBC cipher identities the shim can select. -/
inductive AesCipher
  | aes128cbc
  | aes192cbc
  | aes256cbc
  deriving DecidableEq, Repr

/-- The `switch (algorithm)` of the non-Linux branch of
`Native_CMAC_EVP_MAC_init` (`ssl.cmac.c` lines 59–78): case `2` selects
the `"aes-192-cbc"` cipher string, case `3` selects `"aes-256-cbc"`, and
the `default` case selects `"aes-128-cbc"`. -/
def cmacCipherString (algorithm : Int) : String :=
  if algorithm = 2 then "aes-192-cbc"
  else if algorithm = 3 then "aes-256-cbc"
  else "aes-128-cbc"

/-- The `switch (algorithm)` of the Linux branch of
`Native_CMAC_EVP_MAC_init` (`ssl.cmac.c` lines 94–107): case `2` selects
`EVP_aes_192_cbc()`, case `3` selects `EVP_aes_256_cbc()`, and the
`default` case selects `EVP_aes_128_cbc()`. -/
def cmacEvpCipher (algorithm : Int) : AesCipher :=
  if algorithm = 2 then AesCipher.aes192cbc
  else if algorithm = 3 then AesCipher.aes256cbc
  else AesCipher.aes128cbc

/-- Modelled from the spec: the default provider's cipher lookup used by
`EVP_MAC_init` when handed a cipher name, mapping the AES-CBC names to
their cipher identities. -/
def providerFetchCipher (s : String) : Option AesCipher :=
  if s = "aes-128-cbc" then some AesCipher.aes128cbc
  else if s = "aes-192-cbc" then some AesCipher.aes192cbc
  else if s = "aes-256-cbc" then some AesCipher.aes256cbc
  else none

/-- The `OSSL_PARAM` array built by the non-Linux branch of
`Native_CMAC_EVP_MAC_init`: a cipher name (with its length) and an IV
octet string. -/
structure OsslParams where
  cipher : String
  cipherLen : Int
  iv : List Nat
  deriving DecidableEq, Repr

/-- The parameters the non-Linux branch of `Native_CMAC_EVP_MAC_init`
passes to `EVP_MAC_init` (`ssl.cmac.c` lines 54–90): the cipher string
from the `switch` (every branch sets `cipherStringLen = 11` and
`blockSize = 16`), and the IV constructed from the stack buffer
`unsigned char iv[CMAC_MAX_BLOCK_SIZE] = { 0 }` with length `blockSize`,
i.e. 16 zero bytes.  No caller input reaches the IV. -/
def cmacInitParams (algorithm : Int) : OsslParams where
  cipher := cmacCipherString algorithm
  cipherLen := 11
  iv := List.replicate 16 0

/-- State of the `EVP_MAC`-backend context, modelled at the library's
interface: the fetched cipher, the IV and key supplied at init, and the
bytes accumulated by updates. -/
structure EVP_MAC_CTX where
  cipher : Option AesCipher := none
  iv : List Nat := []
  key : List Nat := []
  data : List Nat := []
  deriving DecidableEq, Repr

/-- State of the `CMAC`-backend context, modelled at the library's
interface: the selected cipher, the key, and the accumulated bytes.  The
`CMAC` primitive has no IV input; it is defined over the zero IV. -/
structure CMAC_CTX where
  cipher : Option AesCipher := none
  key : List Nat := []
  data : List Nat := []
  deriving DecidableEq, Repr

/-- Modelled from the spec: `EVP_MAC_init` resolves the cipher named in
the parameters through the provider, stores cipher, IV and key in the
context, resets the accumulated data, and reports success (`1`); an
unresolvable cipher name is a failure (`0`). -/
def EVP_MAC_init (c : EVP_MAC_CTX) (key : List Nat) (params : OsslParams) :
    Int × EVP_MAC_CTX :=
  match providerFetchCipher params.cipher with
  | none => (0, c)
  | some cph => (1, { cipher := some cph, iv := params.iv, key := key, data := [] })

/-- Modelled from the spec: `CMAC_Init` stores the cipher and key in the
context, resets the accumulated data, and reports success (`1`). -/
def CMAC_Init (c : CMAC_CTX) (key : List Nat) (cipher : AesCipher) :
    Int × CMAC_CTX :=
  let _ := c
  (1, { cipher := some cipher, key := key, data := [] })

/-- Modelled from the spec: `EVP_MAC_update` appends the input bytes to
the accumulated message. -/
def EVP_MAC_update (c : EVP_MAC_CTX) (input : List Nat) : Int × EVP_MAC_CTX :=
  (1, { c with data := c.data ++ input })

/-- Modelled from the spec: `CMAC_Update` appends the input bytes to the
accumulated message. -/
def CMAC_Update (c : CMAC_CTX) (input : List Nat) : Int × CMAC_CTX :=
  (1, { c with data := c.data ++ input })

/-- Modelled from the spec: `EVP_MAC_final` produces the fixed-size tag of
the accumulated message — the CMAC under the stored cipher, IV and key,
abstracted as `tagOf` — and reports its actual length. -/
def EVP_MAC_final (tagOf : AesCipher → List Nat → List Nat → List Nat → List Nat)
    (c : EVP_MAC_CTX) : Int × List Nat × Int :=
  match c.cipher with
  | none => (0, [], 0)
  | some cph =>
    let tag := tagOf cph c.iv c.key c.data
    (1, tag, (tag.length : Int))

/-- Modelled from the spec: `CMAC_Final` produces the fixed-size tag of
the accumulated message — the CMAC under the stored cipher and key, with
the zero IV the `CMAC` primitive is defined over — and reports its
actual length. -/
def CMAC_Final (tagOf : AesCipher → List Nat → List Nat → List Nat → List Nat)
    (c : CMAC_CTX) : Int × List Nat × Int :=
  match c.cipher with
  | none => (0, [], 0)
  | some cph =>
    let tag := tagOf cph (List.replicate 16 0) c.key c.data
    (1, tag, (tag.length : Int))

/-- `Native_CMAC_EVP_MAC_init`, non-Linux branch (`ssl.cmac.c` lines
54–90): build the parameters from the `switch` and the zero IV, then call
`EVP_MAC_init` with the caller's key. -/
def Native_CMAC_EVP_MAC_init_evp (c : EVP_MAC_CTX) (algorithm : Int)
    (keyData : List Nat) : Int × EVP_MAC_CTX :=
  EVP_MAC_init c keyData (cmacInitParams algorithm)

/-- `Native_CMAC_EVP_MAC_init`, Linux branch (`ssl.cmac.c` lines
91–110): select the cipher from the `switch`, then call `CMAC_Init` with
the caller's key (and a `NULL` engine). -/
def Native_CMAC_EVP_MAC_init_linux (c : CMAC_CTX) (algorithm : Int)
    (keyData : List Nat) : Int × CMAC_CTX :=
  CMAC_Init c keyData (cmacEvpCipher algorithm)

/-- `Native_CMAC_EVP_MAC_update`, non-Linux branch (`ssl.cmac.c` line
122). -/
def Native_CMAC_EVP_MAC_update_evp (c : EVP_MAC_CTX) (input : List Nat) :
    Int × EVP_MAC_CTX :=
  EVP_MAC_update c input

/-- `Native_CMAC_EVP_MAC_update`, Linux branch (`ssl.cmac.c` line 124). -/
def Native_CMAC_EVP_MAC_update_linux (c : CMAC_CTX) (input : List Nat) :
    Int × CMAC_CTX :=
  CMAC_Update c input

/-- `Native_CMAC_EVP_MAC_final`, non-Linux branch (`ssl.cmac.c` lines
128–146): call `EVP_MAC_final` and report the produced length through
`*outLen`. -/
def Native_CMAC_EVP_MAC_final_evp
    (tagOf : AesCipher → List Nat → List Nat → List Nat → List Nat)
    (c : EVP_MAC_CTX) (outputSize : Int) : Int × List Nat × Int :=
  let _ := outputSize
  EVP_MAC_final tagOf c

/-- `Native_CMAC_EVP_MAC_final`, Linux branch (`ssl.cmac.c` lines
128–146): call `CMAC_Final` (which overwrites the initial
`outputLen = outputSize`) and report the produced length through
`*outLen`. -/
def Native_CMAC_EVP_MAC_final_linux
    (tagOf : AesCipher → List Nat → List Nat → List Nat → List Nat)
    (c : CMAC_CTX) (outputSize : Int) : Int × List Nat × Int :=
  let _ := outputSize
  CMAC_Final tagOf c

/-- The caller-visible observables of one full
new → init → update* → final sequence against a MAC backend. -/
structure MacRunResult where
  initStatus : Int
  updateStatuses : List Int
  finalStatus : Int
  tag : List Nat
  outLen : Int
  deriving DecidableEq, Repr

/-- One update call against the `EVP_MAC` backend, threading the status
list and the context. -/
def evpMacStep (acc : List Int × EVP_MAC_CTX) (input : List Nat) :
    List Int × EVP_MAC_CTX :=
  let r := Native_CMAC_EVP_MAC_update_evp acc.2 input
  (acc.1 ++ [r.1], r.2)

/-- One update call against the `CMAC` backend, threading the status list
and the context. -/
def cmacStep (acc : List Int × CMAC_CTX) (input : List Nat) :
    List Int × CMAC_CTX :=
  let r := Native_CMAC_EVP_MAC_update_linux acc.2 input
  (acc.1 ++ [r.1], r.2)

/-- Drive the `EVP_MAC` backend through one full
new/init/update*/final sequence. -/
def runEvpMac (tagOf : AesCipher → List Nat → List Nat → List Nat → List Nat)
    (algorithm : Int) (key : List Nat) (updates : List (List Nat))
    (outCap : Int) : MacRunResult :=
  let c0 : EVP_MAC_CTX := {}
  let r1 := Native_CMAC_EVP_MAC_init_evp c0 algorithm key
  let r2 := updates.foldl evpMacStep ([], r1.2)
  let r3 := Native_CMAC_EVP_MAC_final_evp tagOf r2.2 outCap
  { initStatus := r1.1
    updateStatuses := r2.1
    finalStatus := r3.1
    tag := r3.2.1
    outLen := r3.2.2 }

/-- Drive the `CMAC` backend through one full
new/init/update*/final sequence. -/
def runCmac (tagOf : AesCipher → List Nat → List Nat → List Nat → List Nat)
    (algorithm : Int) (key : List Nat) (updates : List (List Nat))
    (outCap : Int) : MacRunResult :=
  let c0 : CMAC_CTX := {}
  let r1 := Native_CMAC_EVP_MAC_init_linux c0 algorithm key
  let r2 := updates.foldl cmacStep ([], r1.2)
  let r3 := Native_CMAC_EVP_MAC_final_linux tagOf r2.2 outCap
  { initStatus := r1.1
    updateStatuses := r2.1
    finalStatus := r3.1
    tag := r3.2.1
    outLen := r3.2.2 }

/-! ## Claims about the dual-backend MAC context -/

/-- The cipher string chosen by the non-Linux `switch` resolves, through
the provider lookup, to the cipher the Linux `switch` selects: the two
backends' cipher selections agree for every algorithm identifier. -/
theorem providerFetch_cmacCipherString (a : Int) :
    providerFetchCipher (cmacCipherString a) = some (cmacEvpCipher a) := by
  unfold cmacCipherString cmacEvpCipher
  split_ifs <;> rfl

/-- Threading any update sequence through the `EVP_MAC` backend appends
a success status per update and accumulates the concatenation of the
inputs. -/
theorem evpMac_foldl_updates (updates : List (List Nat)) (ss : List Int)
    (c : EVP_MAC_CTX) :
    updates.foldl evpMacStep (ss, c)
    = (ss ++ List.replicate updates.length 1,
       { c with data := c.data ++ updates.flatten }) := by
  induction updates generalizing ss c with
  | nil => simp
  | cons u us ih =>
    rw [List.foldl_cons,
      show evpMacStep (ss, c) u = (ss ++ [1], { c with data := c.data ++ u })
        from rfl,
      ih]
    simp [List.replicate_succ]

/-- Threading any update sequence through the `CMAC` backend appends a
success status per update and accumulates the concatenation of the
inputs. -/
theorem cmac_foldl_updates (updates : List (List Nat)) (ss : List Int)
    (c : CMAC_CTX) :
    updates.foldl cmacStep (ss, c)
    = (ss ++ List.replicate updates.length 1,
       { c with data := c.data ++ updates.flatten }) := by
  induction updates generalizing ss c with
  | nil => simp
  | cons u us ih =>
    rw [List.foldl_cons,
      show cmacStep (ss, c) u = (ss ++ [1], { c with data := c.data ++ u })
        from rfl,
      ih]
    simp [List.replicate_succ]

/-- The `EVP_MAC`-backend init call always succeeds and leaves the
context holding the selected cipher, the zero IV and the caller's key. -/
theorem evpMac_init_eq (c : EVP_MAC_CTX) (a : Int) (key : List Nat) :
    Native_CMAC_EVP_MAC_init_evp c a key
      = (1, { cipher := some (cmacEvpCipher a), iv := List.replicate 16 0,
              key := key, data := [] }) := by
  simp [Native_CMAC_EVP_MAC_init_evp, EVP_MAC_init, cmacInitParams,
    providerFetch_cmacCipherString]

/-- Normal form of a full run against the `EVP_MAC` backend. -/
theorem runEvpMac_eq
    (tagOf : AesCipher → List Nat → List Nat → List Nat → List Nat)
    (a : Int) (key : List Nat) (updates : List (List Nat)) (outCap : Int) :
    runEvpMac tagOf a key updates outCap
      = { initStatus := 1
          updateStatuses := List.replicate updates.length 1
          finalStatus := 1
          tag := tagOf (cmacEvpCipher a) (List.replicate 16 0) key updates.flatten
          outLen := ((tagOf (cmacEvpCipher a) (List.replicate 16 0) key
              updates.flatten).length : Int) } := by
  simp [runEvpMac, evpMac_init_eq, evpMac_foldl_updates,
    Native_CMAC_EVP_MAC_final_evp, EVP_MAC_final]

/-- Normal form of a full run against the `CMAC` backend. -/
theorem runCmac_eq
    (tagOf : AesCipher → List Nat → List Nat → List Nat → List Nat)
    (a : Int) (key : List Nat) (updates : List (List Nat)) (outCap : Int) :
    runCmac tagOf a key updates outCap
      = { initStatus := 1
          updateStatuses := List.replicate updates.length 1
          finalStatus := 1
          tag := tagOf (cmacEvpCipher a) (List.replicate 16 0) key updates.flatten
          outLen := ((tagOf (cmacEvpCipher a) (List.replicate 16 0) key
              updates.flatten).length : Int) } := by
  simp [runCmac, Native_CMAC_EVP_MAC_init_linux, CMAC_Init, cmac_foldl_updates,
    Native_CMAC_EVP_MAC_final_linux, CMAC_Final]

/-- C8 (confirmed): for every algorithm selection,
`Native_CMAC_EVP_MAC_init` hands the backend the corresponding AES-CBC
cipher (192-bit for `2`, 256-bit for `3`, 128-bit otherwise) with the
fixed block size 16 and an all-zero IV of that block size; the IV is a
constant of the shim, never taken from the caller, and the Linux branch
selects the matching cipher identity. -/
theorem cmac_init_cipher_and_zero_iv (algorithm : Int) (c : EVP_MAC_CTX)
    (cl : CMAC_CTX) (keyData : List Nat) :
    Native_CMAC_EVP_MAC_init_evp c algorithm keyData
        = EVP_MAC_init c keyData (cmacInitParams algorithm) ∧
    (cmacInitParams algorithm).iv = List.replicate 16 0 ∧
    (cmacInitParams algorithm).iv.length = 16 ∧
    providerFetchCipher (cmacInitParams algorithm).cipher
        = some (cmacEvpCipher algorithm) ∧
    Native_CMAC_EVP_MAC_init_linux cl algorithm keyData
        = CMAC_Init cl keyData (cmacEvpCipher algorithm) ∧
    (algorithm = 2 →
      (cmacInitParams algorithm).cipher = "aes-192-cbc" ∧
      cmacEvpCipher algorithm = AesCipher.aes192cbc) ∧
    (algorithm = 3 →
      (cmacInitParams algorithm).cipher = "aes-256-cbc" ∧
      cmacEvpCipher algorithm = AesCipher.aes256cbc) ∧
    (algorithm ≠ 2 → algorithm ≠ 3 →
      (cmacInitParams algorithm).cipher = "aes-128-cbc" ∧
      cmacEvpCipher algorithm = AesCipher.aes128cbc) := by
  refine ⟨rfl, rfl, rfl, providerFetch_cmacCipherString algorithm, rfl,
    fun h2 => ?_, fun h3 => ?_, fun h2 h3 => ?_⟩
  · subst h2
    exact ⟨rfl, rfl⟩
  · subst h3
    exact ⟨rfl, rfl⟩
  · constructor
    · simp [cmacInitParams, cmacCipherString, h2, h3]
    · simp [cmacEvpCipher, h2, h3]

/-- Witness for `cmac_init_cipher_and_zero_iv`, evaluated at the
algorithm identifiers `2`, `3` and `0`. -/
theorem cmac_init_cipher_and_zero_iv_witness :
    ((cmacInitParams 2).cipher = "aes-192-cbc" ∧
      cmacEvpCipher 2 = AesCipher.aes192cbc) ∧
    ((cmacInitParams 3).cipher = "aes-256-cbc" ∧
      cmacEvpCipher 3 = AesCipher.aes256cbc) ∧
    ((cmacInitParams 0).cipher = "aes-128-cbc" ∧
      cmacEvpCipher 0 = AesCipher.aes128cbc) ∧
    (cmacInitParams 0).iv = List.replicate 16 0 :=
  ⟨(cmac_init_cipher_and_zero_iv 2 {} {} []).2.2.2.2.2.1 rfl,
   (cmac_init_cipher_and_zero_iv 3 {} {} []).2.2.2.2.2.2.1 rfl,
   (cmac_init_cipher_and_zero_iv 0 {} {} []).2.2.2.2.2.2.2 (by decide) (by decide),
   (cmac_init_cipher_and_zero_iv 0 {} {} []).2.1⟩

/-- C9 (confirmed): for every algorithm, key and update sequence, the two
build-time MAC backends, driven through the same
new/init/update*/final call sequence, produce the same observables —
the same status codes, byte-identical tags, and the same reported tag
length; moreover the tag depends only on the concatenation of the update
inputs (incremental-equivalence). -/
theorem mac_backends_equivalent
    (tagOf : AesCipher → List Nat → List Nat → List Nat → List Nat)
    (algorithm : Int) (key : List Nat) (updates : List (List Nat))
    (outCap : Int) :
    runEvpMac tagOf algorithm key updates outCap
        = runCmac tagOf algorithm key updates outCap ∧
    (runEvpMac tagOf algorithm key updates outCap).tag
        = (runEvpMac tagOf algorithm key [updates.flatten] outCap).tag := by
  constructor
  · rw [runEvpMac_eq, runCmac_eq]
  · simp [runEvpMac_eq]

/-- C10 (confirmed): `Native_CMAC_EVP_MAC_init` never rejects an
algorithm identifier: every identifier other than `2` and `3` (including
`0`, `1` and negative values) falls into the `switch`'s `default` case on
both backends, selecting the 128-bit AES-CBC cipher, so the run
initializes successfully and produces exactly the observables of an
AES-128 run. -/
theorem default_algorithm_selects_aes128
    (tagOf : AesCipher → List Nat → List Nat → List Nat → List Nat)
    (a : Int) (key : List Nat) (updates : List (List Nat)) (outCap : Int)
    (h2 : a ≠ 2) (h3 : a ≠ 3) :
    cmacCipherString a = "aes-128-cbc" ∧
    cmacEvpCipher a = AesCipher.aes128cbc ∧
    (runEvpMac tagOf a key updates outCap).initStatus = 1 ∧
    (runCmac tagOf a key updates outCap).initStatus = 1 ∧
    runEvpMac tagOf a key updates outCap = runEvpMac tagOf 1 key updates outCap ∧
    runCmac tagOf a key updates outCap = runCmac tagOf 1 key updates outCap := by
  have hs : cmacCipherString a = "aes-128-cbc" := by
    simp [cmacCipherString, h2, h3]
  have hc : cmacEvpCipher a = AesCipher.aes128cbc := by
    simp [cmacEvpCipher, h2, h3]
  have hc1 : cmacEvpCipher a = cmacEvpCipher 1 := by
    rw [hc]
    decide
  refine ⟨hs, hc, ?_, ?_, ?_, ?_⟩
  · rw [runEvpMac_eq]
  · rw [runCmac_eq]
  · rw [runEvpMac_eq, runEvpMac_eq, hc1]
  · rw [runCmac_eq, runCmac_eq, hc1]

/-- Witness for `default_algorithm_selects_aes128`: the out-of-range
algorithm identifier `-1` behaves exactly like AES-128. -/
theorem default_algorithm_selects_aes128_witness :
    cmacCipherString (-1) = "aes-128-cbc" ∧
    cmacEvpCipher (-1) = AesCipher.aes128cbc ∧
    (runEvpMac (fun _ _ _ m => m) (-1) [1] [[2]] 16).initStatus = 1 ∧
    (runCmac (fun _ _ _ m => m) (-1) [1] [[2]] 16).initStatus = 1 ∧
    runEvpMac (fun _ _ _ m => m) (-1) [1] [[2]] 16
        = runEvpMac (fun _ _ _ m => m) 1 [1] [[2]] 16 ∧
    runCmac (fun _ _ _ m => m) (-1) [1] [[2]] 16
        = runCmac (fun _ _ _ m => m) 1 [1] [[2]] 16 :=
  default_algorithm_selects_aes128 (fun _ _ _ m => m) (-1) [1] [[2]] 16
    (by decide) (by decide)

end YubicoShims
